import Mathlib

/-!
Shallow embedding of the stripe-infakt synchronization tool (src/main.py,
src/utils.py, src/stripe_client.py, src/infakt_client.py).

Modelling conventions:
* Python dicts coming from the Stripe API are modelled as structures whose
  fields are `Option`-typed; `none` stands for a key that is absent.  For
  every field that the source reads only with `dict.get(key)` (no default),
  a JSON `null` value and an absent key are indistinguishable in the source,
  so both are modelled as `none`.  The single place where the source
  distinguishes the two — `customer_data.get("address", {})`, which returns
  the stored `None` (and then raises `AttributeError` on `.get`) when the
  key holds `null`, but the `{}` default when the key is absent — is
  modelled with the three-state type `Option (Option Address)`.
* Fallible code paths (Python exceptions) are modelled with `Except Unit`.
* Machine integers are `Int`; all Stripe/Infakt amounts are integers in
  minor currency units.  Python `int(a / b)` on such amounts is truncation
  toward zero, modelled as `Int.tdiv`; `datetime` timestamp arithmetic is
  exact integer arithmetic.
* Tax-rate percentages are numeric in the source (floats); only their
  presence/absence is ever inspected, so they are modelled as `Rat`.
* Stripping `None`-valued entries from a result dict is a no-op in this
  model: an `Option`-valued field equal to `none` is exactly a stripped key.
-/

namespace StripeInfakt

/-! ## Time Range Calculator (src/utils.py, get_month_timestamps) -/

/-- Gregorian leap-year rule, as used by Python's `datetime` module. -/
def isLeapYear (y : Nat) : Bool :=
  (y % 4 == 0 && y % 100 != 0) || (y % 400 == 0)

/-- Number of days of month `m` (1–12) of year `y`; 0 for an invalid month. -/
def daysInMonth (y m : Nat) : Nat :=
  match m with
  | 1 => 31
  | 2 => if isLeapYear y then 29 else 28
  | 3 => 31
  | 4 => 30
  | 5 => 31
  | 6 => 30
  | 7 => 31
  | 8 => 31
  | 9 => 30
  | 10 => 31
  | 11 => 30
  | 12 => 31
  | _ => 0

/-- Days from January 1 to the first day of month `m` in a non-leap year. -/
def monthOffset (m : Nat) : Nat :=
  match m with
  | 1 => 0
  | 2 => 31
  | 3 => 59
  | 4 => 90
  | 5 => 120
  | 6 => 151
  | 7 => 181
  | 8 => 212
  | 9 => 243
  | 10 => 273
  | 11 => 304
  | 12 => 334
  | _ => 365

/-- Days from January 1 of year `y` to the first day of month `m` of year `y`. -/
def daysBeforeMonth (y m : Nat) : Nat :=
  monthOffset m + (if 3 ≤ m then (if isLeapYear y then 1 else 0) else 0)

/-- Days from 0001-01-01 to January 1 of year `y ≥ 1` (proleptic Gregorian). -/
def daysBeforeYear (y : Nat) : Nat :=
  365 * (y - 1) + (y - 1) / 4 - (y - 1) / 100 + (y - 1) / 400

/-- Day number of the civil date `y-m-d` relative to the Unix epoch 1970-01-01. -/
def epochDay (y m d : Nat) : Int :=
  (daysBeforeYear y : Int) + (daysBeforeMonth y m : Int) + ((d : Int) - 1) - 719162

/-- UTC Unix timestamp of midnight on the civil date `y-m-d`, as produced by
`datetime.datetime(y, m, d, tzinfo=utc).timestamp()`.  Python's `datetime`
constructor raises `ValueError` outside `MINYEAR = 1 ≤ y ≤ MAXYEAR = 9999`,
for months outside 1–12 and for days outside the month; this is the
`.error` case. -/
def datetime_utc_timestamp (y m d : Nat) : Except Unit Int :=
  if 1 ≤ y ∧ y ≤ 9999 ∧ 1 ≤ m ∧ m ≤ 12 ∧ 1 ≤ d ∧ d ≤ daysInMonth y m then
    .ok (86400 * epochDay y m d)
  else .error ()

/-- `get_month_timestamps` from src/utils.py: start of the month and one
second before the start of the following month, both as UTC timestamps. -/
def get_month_timestamps (year month : Nat) : Except Unit (Int × Int) := do
  let s ← datetime_utc_timestamp year month 1
  let e ←
    (if month = 12 then datetime_utc_timestamp (year + 1) 1 1
     else datetime_utc_timestamp year (month + 1) 1)
  pure (s, e - 1)

/-! ## Conversion of timestamps to calendar dates (src/utils.py) -/

/-- Civil date (year, month, day) of a day number relative to 1970-01-01
(Howard Hinnant's `civil_from_days` algorithm, which is what the proleptic
Gregorian conversion inside `datetime.fromtimestamp` computes). -/
def civilFromDays (z0 : Int) : Int × Int × Int :=
  let z := z0 + 719468
  let era : Int := Int.fdiv z 146097
  let doe : Int := z - era * 146097
  let yoe : Int :=
    Int.tdiv (doe - Int.tdiv doe 1460 + Int.tdiv doe 36524 - Int.tdiv doe 146096) 365
  let y : Int := yoe + era * 400
  let doy : Int := doe - (365 * yoe + Int.tdiv yoe 4 - Int.tdiv yoe 100)
  let mp : Int := Int.tdiv (5 * doy + 2) 153
  let d : Int := doy - Int.tdiv (153 * mp + 2) 5 + 1
  let m : Int := mp + (if mp < 10 then 3 else -9)
  (if m ≤ 2 then y + 1 else y, m, d)

/-- Zero-pad a (nonnegative) number to two digits, as `%m`/`%d` do. -/
def pad2 (n : Int) : String :=
  (if n < 10 then "0" else "") ++ toString n

/-- Zero-pad a (nonnegative) number to four digits, as `%Y` does. -/
def pad4 (n : Int) : String :=
  (if n < 10 then "000" else if n < 100 then "00" else if n < 1000 then "0" else "")
    ++ toString n

/-- `YYYY-MM-DD` rendering of the UTC calendar date of a Unix timestamp. -/
def formatUtcDate (t : Int) : String :=
  let c := civilFromDays (Int.fdiv t 86400)
  pad4 c.1 ++ "-" ++ pad2 c.2.1 ++ "-" ++ pad2 c.2.2

/-- `timestamp_to_infakt_date` from src/utils.py.  `None` input maps to
`None`; a timestamp outside the range `datetime.fromtimestamp` supports
(0001-01-01T00:00:00Z to 9999-12-31T23:59:59Z) raises, which the source
catches and turns into `None`. -/
def timestamp_to_infakt_date (timestamp : Option Int) : Option String :=
  match timestamp with
  | none => none
  | some t =>
    if -62135596800 ≤ t ∧ t ≤ 253402300799 then some (formatUtcDate t)
    else none

/-! ## Stripe-side data model -/

/-- Python's `str.upper()`, character-wise (currency codes are ASCII). -/
def pyUpper (s : String) : String :=
  ⟨s.data.map Char.toUpper⟩

/-- Python string truthiness for an optional string: `None` and the empty
string are falsy. -/
def truthyStr : Option String → Bool
  | some s => if s = "" then false else true
  | none => false

/-- One entry of a line item's `tax_amounts` array. -/
structure TaxAmount where
  amount : Option Int := none
deriving DecidableEq

/-- One entry of a line item's expanded `tax_rates` array. -/
structure TaxRate where
  percentage : Option Rat := none
deriving DecidableEq

/-- The `price` sub-object of a line item. -/
structure Price where
  unit_label : Option String := none
deriving DecidableEq

/-- A Stripe invoice line item (an entry of `lines.data`). -/
structure LineItem where
  object : Option String := none
  description : Option String := none
  quantity : Option Int := none
  price : Option Price := none
  amount : Option Int := none
  tax_rates : Option (List TaxRate) := none
  tax_amounts : Option (List TaxAmount) := none
deriving DecidableEq

/-- The `lines` sub-object of a Stripe invoice. -/
structure Lines where
  data : Option (List LineItem) := none
deriving DecidableEq

/-- The `status_transitions` sub-object of a Stripe invoice. -/
structure StatusTransitions where
  paid_at : Option Int := none
deriving DecidableEq

/-- A customer's address sub-object. -/
structure Address where
  line1 : Option String := none
  city : Option String := none
  postal_code : Option String := none
  country : Option String := none
deriving DecidableEq

/-- An expanded Stripe customer.  The `address` field is three-state: the
source reads it as `customer_data.get("address", {})`, which yields the
`{}` default only when the key is absent (`none`) but yields the stored
`None` when the key holds JSON `null` (`some none`), on which the
subsequent `.get("line1")` raises `AttributeError`. -/
structure Customer where
  id : Option String := none
  name : Option String := none
  address : Option (Option Address) := none
deriving DecidableEq

/-- One entry of an invoice's `customer_tax_ids` array. -/
structure TaxIdObj where
  type : Option String := none
  value : Option String := none
deriving DecidableEq

/-- A Stripe invoice, restricted to the fields the source reads. -/
structure StripeInvoice where
  id : Option String := none
  total : Option Int := none
  subtotal : Option Int := none
  tax : Option Int := none
  amount_paid : Option Int := none
  currency : Option String := none
  created : Option Int := none
  number : Option String := none
  payment_intent : Option String := none
  charge : Option String := none
  status_transitions : Option StatusTransitions := none
  lines : Option Lines := none
  customer : Option Customer := none
  customer_tax_ids : Option (List TaxIdObj) := none
deriving DecidableEq

/-- `stripe_invoice.get('status_transitions', {}).get('paid_at')`. -/
def statusPaidAt (inv : StripeInvoice) : Option Int :=
  (inv.status_transitions.getD {}).paid_at

/-- The list of line items of an invoice; `[]` exactly when the source's
truthiness test `not lines or not lines.get('data')` fires. -/
def linesData (inv : StripeInvoice) : List LineItem :=
  match inv.lines with
  | none => []
  | some l => l.data.getD []

/-! ## Tax symbol and payment method mappers (src/utils.py) -/

/-- `map_stripe_tax_rate_to_infakt_symbol` from src/utils.py: a missing
percentage maps to the exempt symbol `"zw"`; the function body handles no
other case, so any present percentage falls off the end (Python `None`). -/
def map_stripe_tax_rate_to_infakt_symbol (percentage : Option Rat) : Option String :=
  match percentage with
  | none => some "zw"
  | some _ => none

/-- `map_stripe_payment_method` from src/utils.py: `"card"` when the invoice
carries a (truthy) payment-intent or charge identifier, else `"other"`. -/
def map_stripe_payment_method (inv : StripeInvoice) : String :=
  if truthyStr inv.payment_intent || truthyStr inv.charge then "card" else "other"

/-! ## Client Classifier (src/utils.py, get_client_details) -/

/-- The space character, the separator of `name.split(' ', 1)`. -/
def spaceChar : Char := Char.ofNat 32

/-- Python's `s.split(' ', 1)`: at most one split, at the first space.
Yields a two-element list when the string contains a space, else `[s]`. -/
def splitFirstSpace (s : String) : List String :=
  if s.data.contains spaceChar then
    [⟨s.data.takeWhile (fun ch => ch ≠ spaceChar)⟩,
     ⟨(s.data.dropWhile (fun ch => ch ≠ spaceChar)).tail⟩]
  else [s]

/-- The flattened client-details dict built by `get_client_details`.
A field equal to `none` is a key that is absent after the final
`None`-stripping comprehension. -/
structure ClientDetails where
  client_street : Option String := none
  client_city : Option String := none
  client_post_code : Option String := none
  client_country : Option String := none
  client_tax_code : Option String := none
  client_company_name : Option String := none
  client_business_activity_kind : Option String := none
  client_first_name : Option String := none
  client_last_name : Option String := none
deriving DecidableEq

/-- The address dict the source works with: the stored address when the key
holds one, the `{}` default when the key is absent.  (The `some none`
case — key present with `null` — raises before this is consulted.) -/
def addressOf (c : Customer) : Address :=
  match c.address with
  | some (some a) => a
  | _ => {}

/-- The address-derived fields every branch of `get_client_details` starts
from. -/
def baseDetails (c : Customer) : ClientDetails :=
  { client_street := (addressOf c).line1
    client_city := (addressOf c).city
    client_post_code := (addressOf c).postal_code
    client_country := (addressOf c).country }

/-- `get_client_details` from src/utils.py.  The `.error` case is the
`AttributeError` raised by `customer_data.get("address", {}).get("line1")`
when the `address` key is present but holds `null`. -/
def get_client_details (customer_data : Option Customer) (tax_code : Option String) :
    Except Unit ClientDetails :=
  match customer_data with
  | none => .ok {}
  | some c =>
    if c.address = some none then .error ()
    else if truthyStr tax_code then
      .ok { baseDetails c with
              client_tax_code := tax_code
              client_company_name := c.name
              client_business_activity_kind := some "other_business" }
    else if truthyStr c.name then
      match splitFirstSpace (c.name.getD "") with
      | [f, l] =>
        .ok { baseDetails c with
                client_first_name := some f
                client_last_name := some l
                client_business_activity_kind := some "private_person" }
      | _ =>
        .ok { baseDetails c with
                client_company_name := some (c.name.getD "")
                client_business_activity_kind := some "other_business" }
    else .ok (baseDetails c)

/-! ## Tax identifier extraction (src/main.py, lines 103–117) -/

/-- The scanning loop over `customer_tax_ids`: each truthy value overwrites
`nip`, and the loop breaks as soon as the entry that supplied the current
value has type `eu_vat`. -/
def extractNipAux : List TaxIdObj → Option String → Option String
  | [], nip => nip
  | t :: rest, nip =>
    match t.value with
    | some v =>
      if v = "" then extractNipAux rest nip
      else if t.type = some "eu_vat" then some v
      else extractNipAux rest (some v)
    | none => extractNipAux rest nip

/-- The tax identifier (`nip`) extracted from an invoice's
`customer_tax_ids` records. -/
def extractNip (ids : List TaxIdObj) : Option String :=
  extractNipAux ids none

/-- An entry whose value is truthy and whose type is `eu_vat` (the loop's
break condition). -/
def isEuVatTruthy (t : TaxIdObj) : Bool :=
  truthyStr t.value && (t.type == some "eu_vat")

/-- An entry whose value is truthy (the loop's overwrite condition). -/
def isTruthyVal (t : TaxIdObj) : Bool :=
  truthyStr t.value

/-! ## Invoice Transformer (src/main.py, transform_stripe_to_infakt) -/

/-- The percentage of the first entry of the item's expanded `tax_rates`
array, when that array is present and non-empty. -/
def taxPercentage (item : LineItem) : Option Rat :=
  match item.tax_rates with
  | some (r :: _) => r.percentage
  | _ => none

/-- `sum(t.get('amount', 0) for t in item.get('tax_amounts', []))`. -/
def taxAmountTotal (item : LineItem) : Int :=
  ((item.tax_amounts.getD []).map (fun t => t.amount.getD 0)).sum

/-- `int(item['amount'] / item['quantity']) if item.get('quantity') else
item.get('amount')`.  Division happens only for a truthy (present, nonzero)
quantity; `int(...)` of the float quotient truncates toward zero
(`Int.tdiv`); the subscript `item['amount']` raises `KeyError` when the
key is absent. -/
def unitNetPrice (item : LineItem) : Except Unit (Option Int) :=
  if item.quantity.getD 0 ≠ 0 then
    match item.amount with
    | some a => .ok (some (Int.tdiv a (item.quantity.getD 0)))
    | none => .error ()
  else .ok item.amount

/-- One Infakt service line, as built for each processed line item.  A
field equal to `none` is a key removed by the `v is not None` comprehension. -/
structure InfaktService where
  name : String
  quantity : Int
  unit : String
  net_price : Option Int
  tax_price : Int
  gross_price : Int
  unit_net_price : Option Int
  flat_rate_tax_symbol : String
  tax_symbol : Option String
deriving DecidableEq

/-- The service dict built from one line item (src/main.py lines 60–88).
The `tax_symbol` key is added only when the mapper's result is truthy,
which for this mapper coincides with it being non-`None`. -/
def mkService (item : LineItem) : Except Unit InfaktService :=
  match unitNetPrice item with
  | .error e => .error e
  | .ok unp =>
    .ok { name := item.description.getD "N/A"
          quantity := item.quantity.getD 1
          unit := (match item.price with
                   | some p => p.unit_label.getD "szt."
                   | none => "szt.")
          net_price := item.amount
          tax_price := taxAmountTotal item
          gross_price := item.amount.getD 0 + taxAmountTotal item
          unit_net_price := unp
          flat_rate_tax_symbol := "12"
          tax_symbol := map_stripe_tax_rate_to_infakt_symbol (taxPercentage item) }

/-- The loop over `stripe_invoice['lines']['data']`: entries whose `object`
is not `'line_item'` are skipped with `continue`; each remaining entry is
turned into a service and appended. -/
def buildServices : List LineItem → Except Unit (List InfaktService)
  | [] => .ok []
  | item :: rest =>
    if item.object = some "line_item" then
      match mkService item with
      | .error e => .error e
      | .ok s =>
        match buildServices rest with
        | .error e => .error e
        | .ok ss => .ok (s :: ss)
    else buildServices rest

/-- The cleaned Infakt payload dict returned by `transform_stripe_to_infakt`.
The client-details keys that the source merges in with `**client_data` are
kept in the nested `client` record; a field equal to `none` is a key removed
by the final `v is not None` comprehension. -/
structure InfaktPayload where
  invoice_date : Option String
  sale_date : Option String
  paid_date : Option String
  payment_date : Option String
  currency : String
  status : String := "paid"
  kind : String := "vat"
  payment_method : String
  number : Option String
  net_price : Option Int
  tax_price : Option Int
  gross_price : Option Int
  paid_price : Option Int
  left_to_pay : Int := 0
  sale_type : String := "service"
  services : List InfaktService
  client : ClientDetails
deriving DecidableEq

/-- `paid_date_str`: the paid-transition timestamp as a calendar date. -/
def paidDateStr (inv : StripeInvoice) : Option String :=
  timestamp_to_infakt_date (statusPaidAt inv)

/-- `sale_date_str`: the created timestamp's date, overridden by the paid
date whenever the latter is truthy. -/
def saleDateStr (inv : StripeInvoice) : Option String :=
  if truthyStr (paidDateStr inv) then paidDateStr inv
  else timestamp_to_infakt_date inv.created

/-- `nip`: the tax identifier extracted from the invoice. -/
def nipOf (inv : StripeInvoice) : Option String :=
  extractNip (inv.customer_tax_ids.getD [])

/-- `transform_stripe_to_infakt` from src/main.py.  `.ok none` is the
deliberate skip outcome (`return None`); `.error ()` is an uncaught Python
exception escaping the function.  The two trailing checks mirror the
source's post-validation of `services` and `invoice_date` on the cleaned
payload dict. -/
def transform_stripe_to_infakt (inv : StripeInvoice) : Except Unit (Option InfaktPayload) :=
  if inv.total.getD 0 = 0 then .ok none
  else if linesData inv = [] then .ok none
  else
    match buildServices (linesData inv) with
    | .error e => .error e
    | .ok infakt_services =>
      if infakt_services = [] then .ok none
      else
        match get_client_details inv.customer (nipOf inv) with
        | .error e => .error e
        | .ok client_data =>
          if infakt_services = [] then .ok none
          else if ¬ truthyStr (paidDateStr inv) then .ok none
          else .ok (some
            { invoice_date := paidDateStr inv
              sale_date := saleDateStr inv
              paid_date := paidDateStr inv
              payment_date := paidDateStr inv
              currency := pyUpper (inv.currency.getD "PLN")
              payment_method := map_stripe_payment_method inv
              number := inv.number
              net_price := inv.subtotal
              tax_price := inv.tax
              gross_price := inv.total
              paid_price := inv.amount_paid
              services := infakt_services
              client := client_data })

/-! ## Source Invoice Fetcher, client-side filter (src/stripe_client.py) -/

/-- The client-side filtering loop of `get_paid_invoices` (src/stripe_client.py
lines 64–75), applied to the fully fetched invoice list: keep an invoice
when its `status_transitions.paid_at` is truthy (present and nonzero) and
within the inclusive range. -/
def get_paid_invoices (fetched : List StripeInvoice) (start_timestamp end_timestamp : Int) :
    List StripeInvoice :=
  match fetched with
  | [] => []
  | inv :: rest =>
    match statusPaidAt inv with
    | some p =>
      if p ≠ 0 ∧ start_timestamp ≤ p ∧ p ≤ end_timestamp then
        inv :: get_paid_invoices rest start_timestamp end_timestamp
      else get_paid_invoices rest start_timestamp end_timestamp
    | none => get_paid_invoices rest start_timestamp end_timestamp

/-- The predicate an invoice must satisfy to survive the client-side filter. -/
def paidInRange (startTs endTs : Int) (inv : StripeInvoice) : Bool :=
  match statusPaidAt inv with
  | some p => decide (p ≠ 0 ∧ startTs ≤ p ∧ p ≤ endTs)
  | none => false

/-! ## Destination Submitter (src/infakt_client.py, create_invoice_async) -/

/-- A JSON value, for the request payload sent to Infakt. -/
inductive JsonVal where
  | null
  | bool (b : Bool)
  | num (n : Int)
  | str (s : String)
  | arr (xs : List JsonVal)
  | obj (fields : List (String × JsonVal))

/-- A JSON object (a Python dict), as a key/value list. -/
abbrev JsonObj := List (String × JsonVal)

/-- The keys of a dict, for the `'invoice' not in invoice_payload` test. -/
def objKeys (p : JsonObj) : List String :=
  p.map Prod.fst

/-- Wrap the payload in the `{"invoice": ...}` envelope unless the key is
already present. -/
def ensureWrapped (p : JsonObj) : JsonObj :=
  if (objKeys p).contains "invoice" then p else [("invoice", JsonVal.obj p)]

/-- The outcome of the single HTTP POST: either `requests.post` raises a
`RequestException` (network failure), or a response arrives with a status
code and a body that parses as JSON (`some`) or does not (`none`). -/
inductive HttpOutcome where
  | requestRaises
  | response (status : Nat) (jsonBody : Option JsonObj)

/-- `create_invoice_async` from src/infakt_client.py, as a function of the
payload and of the HTTP outcome.  Returns the request body that was
serialized and posted together with the value the function returns:
`raise_for_status` raises (caught, `None` returned) exactly for statuses
400–599; otherwise the parsed body is returned, a body that fails to parse
being an exception that is caught and turned into `None`.  Exactly one
request is issued per call — the model consumes a single `HttpOutcome`. -/
def create_invoice_async (invoice_payload : JsonObj) (o : HttpOutcome) :
    JsonObj × Option JsonObj :=
  let payload := ensureWrapped invoice_payload
  (payload,
    match o with
    | .requestRaises => none
    | .response status jsonBody =>
      if 400 ≤ status ∧ status < 600 then none
      else
        match jsonBody with
        | some d => some d
        | none => none)

deriving instance DecidableEq for Except

/-! ## Concrete inputs used in witnesses and counterexamples -/

/-- A line item with an attached tax rate and tax amount. -/
def exampleItem : LineItem :=
  { object := some "line_item"
    description := some "Subscription"
    quantity := some 2
    amount := some 4000
    tax_amounts := some [{ amount := some 800 }]
    tax_rates := some [{ percentage := some 23 }] }

/-- A line item with no tax-rate information at all. -/
def exampleItemBare : LineItem :=
  { object := some "line_item"
    description := some "Fee"
    amount := some 500 }

/-- A paid invoice carrying both example items (paid 1970-01-02 UTC). -/
def exampleInvoice : StripeInvoice :=
  { id := some "in_1"
    total := some 5300
    subtotal := some 4500
    tax := some 800
    amount_paid := some 5300
    currency := some "pln"
    created := some 86400
    status_transitions := some { paid_at := some 86400 }
    lines := some { data := some [exampleItem, exampleItemBare] }
    customer := some { name := some "Jan Kowalski" }
    customer_tax_ids := some [] }

/-- The payload the transformer produces for `exampleInvoice`. -/
def examplePayload : InfaktPayload :=
  { invoice_date := some "1970-01-02"
    sale_date := some "1970-01-02"
    paid_date := some "1970-01-02"
    payment_date := some "1970-01-02"
    currency := "PLN"
    payment_method := "other"
    number := none
    net_price := some 4500
    tax_price := some 800
    gross_price := some 5300
    paid_price := some 5300
    services :=
      [{ name := "Subscription", quantity := 2, unit := "szt.", net_price := some 4000,
         tax_price := 800, gross_price := 4800, unit_net_price := some 2000,
         flat_rate_tax_symbol := "12", tax_symbol := none },
       { name := "Fee", quantity := 1, unit := "szt.", net_price := some 500,
         tax_price := 0, gross_price := 500, unit_net_price := some 500,
         flat_rate_tax_symbol := "12", tax_symbol := some "zw" }]
    client := { client_business_activity_kind := some "private_person"
                client_first_name := some "Jan"
                client_last_name := some "Kowalski" } }

/-- An invoice whose only line entry is not a `line_item` object. -/
def noLineItemInvoice : StripeInvoice :=
  { id := some "in_2"
    total := some 100
    status_transitions := some { paid_at := some 86400 }
    lines := some { data := some [{ object := some "invoiceitem", amount := some 100 }] } }

/-- An invoice whose single line item has a negative amount and quantity 2
(a Stripe credit/proration line). -/
def negAmountInvoice : StripeInvoice :=
  { id := some "in_3"
    total := some (-5)
    status_transitions := some { paid_at := some 86400 }
    lines := some { data := some [{ object := some "line_item"
                                    amount := some (-5)
                                    quantity := some 2 }] } }

/-- A customer whose name has two spaces. -/
def threeWordCustomer : Customer :=
  { name := some "Jan Maria Kowalski" }

/-- A customer with a plain two-part name. -/
def jkCustomer : Customer :=
  { name := some "Jan Kowalski" }

/-- The details produced for `jkCustomer` without a tax code. -/
def jkDetails : ClientDetails :=
  { client_first_name := some "Jan"
    client_last_name := some "Kowalski"
    client_business_activity_kind := some "private_person" }

/-- A customer whose `address` key is present but holds JSON `null` — what
Stripe returns for a customer without an address on file. -/
def nullAddressCustomer : Customer :=
  { name := some "Jan Kowalski"
    address := some none }

/-- Two customer tax identifiers, both truthy, neither of type `eu_vat`. -/
def usEin : TaxIdObj := { type := some "us_ein", value := some "1" }

/-- Second tax identifier for the extraction counterexample. -/
def gbVat : TaxIdObj := { type := some "gb_vat", value := some "2" }

/-- An invoice whose paid timestamp is exactly 0 (the Unix epoch). -/
def zeroPaidInvoice : StripeInvoice :=
  { id := some "in_0"
    total := some 100
    status_transitions := some { paid_at := some 0 } }

/-- A response body carrying a task reference. -/
def taskRefBody : JsonObj := [("invoice_task_reference_number", JsonVal.num 7)]

/-- A payload already wrapped in the `invoice` envelope. -/
def wrappedExample : JsonObj := [("invoice", JsonVal.obj [])]

/-! ## Theorems: Time Range Calculator -/

lemma isLeapYear_iff (y : Nat) :
    isLeapYear y = true ↔ ((y % 4 = 0 ∧ y % 100 ≠ 0) ∨ y % 400 = 0) := by
  simp [isLeapYear]

lemma daysBeforeYear_succ_leap (y : Nat) (hy : 1 ≤ y) (hL : isLeapYear y = true) :
    daysBeforeYear (y + 1) = daysBeforeYear y + 366 := by
  have hiff := (isLeapYear_iff y).mp hL
  unfold daysBeforeYear
  rcases hiff with ⟨h4, h100⟩ | h400
  · have e4 : (y + 1 - 1) / 4 = (y - 1) / 4 + 1 := by omega
    have e100 : (y + 1 - 1) / 100 = (y - 1) / 100 := by omega
    have e400 : (y + 1 - 1) / 400 = (y - 1) / 400 := by omega
    omega
  · have e4 : (y + 1 - 1) / 4 = (y - 1) / 4 + 1 := by omega
    have e100 : (y + 1 - 1) / 100 = (y - 1) / 100 + 1 := by omega
    have e400 : (y + 1 - 1) / 400 = (y - 1) / 400 + 1 := by omega
    omega

lemma daysBeforeYear_succ_common (y : Nat) (hy : 1 ≤ y) (hL : isLeapYear y = false) :
    daysBeforeYear (y + 1) = daysBeforeYear y + 365 := by
  unfold daysBeforeYear
  by_cases h400 : y % 400 = 0
  · have h := (isLeapYear_iff y).mpr (Or.inr h400)
    rw [hL] at h
    exact Bool.noConfusion h
  · by_cases h4 : y % 4 = 0
    · by_cases h100 : y % 100 = 0
      · have e4 : (y + 1 - 1) / 4 = (y - 1) / 4 + 1 := by omega
        have e100 : (y + 1 - 1) / 100 = (y - 1) / 100 + 1 := by omega
        have e400 : (y + 1 - 1) / 400 = (y - 1) / 400 := by omega
        omega
      · have h := (isLeapYear_iff y).mpr (Or.inl ⟨h4, h100⟩)
        rw [hL] at h
        exact Bool.noConfusion h
    · have e4 : (y + 1 - 1) / 4 = (y - 1) / 4 := by omega
      have e100 : (y + 1 - 1) / 100 = (y - 1) / 100 := by omega
      have e400 : (y + 1 - 1) / 400 = (y - 1) / 400 := by omega
      omega

lemma daysInMonth_pos (y m : Nat) (hm1 : 1 ≤ m) (hm2 : m ≤ 12) :
    1 ≤ daysInMonth y m := by
  by_cases hL : isLeapYear y <;> interval_cases m <;> simp [daysInMonth, hL]

lemma daysBeforeMonth_succ (y m : Nat) (hm1 : 1 ≤ m) (hm2 : m ≤ 11) :
    daysBeforeMonth y (m + 1) = daysBeforeMonth y m + daysInMonth y m := by
  by_cases hL : isLeapYear y <;> interval_cases m <;>
    simp [daysBeforeMonth, monthOffset, daysInMonth, hL]

lemma epochDay_next_mid (y m : Nat) (hm1 : 1 ≤ m) (hm2 : m ≤ 11) :
    epochDay y (m + 1) 1 = epochDay y m 1 + daysInMonth y m := by
  have hsucc := daysBeforeMonth_succ y m hm1 hm2
  unfold epochDay
  rw [hsucc]
  push_cast
  ring

lemma epochDay_next_dec (y : Nat) (hy : 1 ≤ y) :
    epochDay (y + 1) 1 1 = epochDay y 12 1 + daysInMonth y 12 := by
  have h1 : daysBeforeMonth (y + 1) 1 = 0 := by
    simp [daysBeforeMonth, monthOffset]
  have h31 : daysInMonth y 12 = 31 := rfl
  unfold epochDay
  rw [h1, h31]
  cases hL : isLeapYear y with
  | true =>
    have hs := daysBeforeYear_succ_leap y hy hL
    have h12 : daysBeforeMonth y 12 = 335 := by
      simp [daysBeforeMonth, monthOffset, hL]
    rw [hs, h12]
    push_cast
    ring
  | false =>
    have hs := daysBeforeYear_succ_common y hy hL
    have h12 : daysBeforeMonth y 12 = 334 := by
      simp [daysBeforeMonth, monthOffset, hL]
    rw [hs, h12]
    push_cast
    ring

/-- C6 (amended): for every year 1–9999 and month 1–12 other than December
9999, `get_month_timestamps` returns the timestamp of midnight UTC on day 1
of the month and the timestamp one second before midnight UTC on day 1 of
the following month, and the inclusive span is `daysInMonth * 86400`.
December 9999 (and any year outside `datetime`'s 1–9999 range) raises
`ValueError` instead. -/
theorem month_timestamps_span (year month : Nat)
    (h1 : 1 ≤ year) (h2 : year ≤ 9999) (h3 : 1 ≤ month) (h4 : month ≤ 12)
    (h5 : ¬(year = 9999 ∧ month = 12)) :
    get_month_timestamps year month =
      .ok (86400 * epochDay year month 1,
           86400 * epochDay (if month = 12 then year + 1 else year)
                            (if month = 12 then 1 else month + 1) 1 - 1) ∧
    (86400 * epochDay (if month = 12 then year + 1 else year)
                      (if month = 12 then 1 else month + 1) 1 - 1)
      - 86400 * epochDay year month 1 + 1
      = (daysInMonth year month : Int) * 86400 := by
  have hok : ∀ y m d : Nat,
      (1 ≤ y ∧ y ≤ 9999 ∧ 1 ≤ m ∧ m ≤ 12 ∧ 1 ≤ d ∧ d ≤ daysInMonth y m) →
      datetime_utc_timestamp y m d = .ok (86400 * epochDay y m d) := by
    intro y m d h
    unfold datetime_utc_timestamp
    rw [if_pos h]
  have hd1 : 1 ≤ daysInMonth year month := daysInMonth_pos year month h3 h4
  by_cases hm : month = 12
  · subst hm
    constructor
    · unfold get_month_timestamps
      rw [hok year 12 1 ⟨h1, h2, h3, h4, le_refl 1, hd1⟩,
          hok (year + 1) 1 1 ⟨by omega, by omega, by omega, by omega, by omega,
            by norm_num [daysInMonth]⟩]
      rfl
    · rw [if_pos rfl, if_pos rfl]
      have := epochDay_next_dec year h1
      linarith
  · have hm11 : month + 1 ≤ 12 := by omega
    have hd2 : 1 ≤ daysInMonth year (month + 1) :=
      daysInMonth_pos year (month + 1) (by omega) hm11
    constructor
    · unfold get_month_timestamps
      rw [hok year month 1 ⟨h1, h2, h3, h4, le_refl 1, hd1⟩]
      rw [if_neg hm,
          hok year (month + 1) 1 ⟨h1, h2, by omega, hm11, le_refl 1, hd2⟩]
      rw [if_neg hm, if_neg hm]
      rfl
    · rw [if_neg hm, if_neg hm]
      have := epochDay_next_mid year month h3 (by omega)
      linarith

/-- C6 (counterexample to the claim as stated): December 9999 is within the
claim's domain (&quot;every year and every month 1–12, including December&quot;), yet
`get_month_timestamps 9999 12` raises `ValueError` constructing
`datetime.datetime(10000, 1, 1)` instead of returning timestamps. -/
theorem month_timestamps_december_9999_raises :
    get_month_timestamps 9999 12 = .error () := by rfl

/-- Witness for `month_timestamps_span`: February 2024, a leap February. -/
theorem month_timestamps_span_witness :
    (1 ≤ 2024 ∧ 2024 ≤ 9999 ∧ 1 ≤ 2 ∧ 2 ≤ 12 ∧ ¬(2024 = 9999 ∧ 2 = 12)) ∧
    (get_month_timestamps 2024 2 =
      .ok (86400 * epochDay 2024 2 1,
           86400 * epochDay (if 2 = 12 then 2024 + 1 else 2024)
                            (if 2 = 12 then 1 else 2 + 1) 1 - 1) ∧
     (86400 * epochDay (if 2 = 12 then 2024 + 1 else 2024)
                       (if 2 = 12 then 1 else 2 + 1) 1 - 1)
       - 86400 * epochDay 2024 2 1 + 1
       = (daysInMonth 2024 2 : Int) * 86400) :=
  ⟨⟨by omega, by omega, by omega, by omega, by omega⟩,
   month_timestamps_span 2024 2 (by omega) (by omega) (by omega) (by omega) (by omega)⟩

/-! ## Theorems: Invoice Transformer -/

lemma mkService_ok {item : LineItem} {s : InfaktService} (h : mkService item = .ok s) :
    s.net_price = item.amount ∧
    s.tax_price = taxAmountTotal item ∧
    s.gross_price = item.amount.getD 0 + taxAmountTotal item ∧
    s.tax_symbol = map_stripe_tax_rate_to_infakt_symbol (taxPercentage item) ∧
    unitNetPrice item = .ok s.unit_net_price := by
  unfold mkService at h
  cases hu : unitNetPrice item with
  | error e => rw [hu] at h; exact Except.noConfusion h
  | ok unp =>
    rw [hu] at h
    cases h
    exact ⟨rfl, rfl, rfl, rfl, rfl⟩

lemma buildServices_mem {items : List LineItem} {ss : List InfaktService}
    (h : buildServices items = .ok ss) :
    ∀ s ∈ ss, ∃ item ∈ items, item.object = some "line_item" ∧ mkService item = .ok s := by
  induction items generalizing ss with
  | nil =>
    unfold buildServices at h
    cases h
    intro s hs
    exact absurd hs (List.not_mem_nil s)
  | cons item rest ih =>
    unfold buildServices at h
    by_cases ho : item.object = some "line_item"
    · rw [if_pos ho] at h
      cases hm : mkService item with
      | error e => rw [hm] at h; exact Except.noConfusion h
      | ok s0 =>
        rw [hm] at h
        cases hb : buildServices rest with
        | error e => rw [hb] at h; exact Except.noConfusion h
        | ok ss0 =>
          rw [hb] at h
          cases h
          intro s hs
          rcases List.mem_cons.mp hs with rfl | hs'
          · exact ⟨item, List.mem_cons_self item rest, ho, hm⟩
          · rcases ih hb s hs' with ⟨it, hit, ho', hm'⟩
            exact ⟨it, List.mem_cons_of_mem item hit, ho', hm'⟩
    · rw [if_neg ho] at h
      intro s hs
      rcases ih h s hs with ⟨it, hit, ho', hm'⟩
      exact ⟨it, List.mem_cons_of_mem item hit, ho', hm'⟩

lemma buildServices_skip {items : List LineItem}
    (h : ∀ item ∈ items, ¬ item.object = some "line_item") :
    buildServices items = .ok [] := by
  induction items with
  | nil => rfl
  | cons item rest ih =>
    unfold buildServices
    rw [if_neg (h item (List.mem_cons_self item rest))]
    exact ih (fun it hit => h it (List.mem_cons_of_mem item hit))

lemma transform_services {inv : StripeInvoice} {p : InfaktPayload}
    (h : transform_stripe_to_infakt inv = .ok (some p)) :
    buildServices (linesData inv) = .ok p.services := by
  unfold transform_stripe_to_infakt at h
  by_cases h1 : inv.total.getD 0 = 0
  · rw [if_pos h1] at h; simp at h
  rw [if_neg h1] at h
  by_cases h2 : linesData inv = []
  · rw [if_pos h2] at h; simp at h
  rw [if_neg h2] at h
  cases hb : buildServices (linesData inv) with
  | error e => rw [hb] at h; exact Except.noConfusion h
  | ok ss =>
    simp only [hb] at h
    by_cases h3 : ss = []
    · rw [if_pos h3] at h; simp at h
    rw [if_neg h3] at h
    cases hc : get_client_details inv.customer (nipOf inv) with
    | error e => simp only [hc] at h; exact Except.noConfusion h
    | ok cd =>
      simp only [hc] at h
      rw [if_neg h3] at h
      by_cases h4 : ¬ truthyStr (paidDateStr inv)
      · rw [if_pos h4] at h; simp at h
      rw [if_neg h4] at h
      cases h
      rfl

/-- C1: every service produced by the transformer satisfies
`gross_price = net_price + tax_price`, where `net_price` is the source
item's `amount`, `tax_price` is the sum of the item's applied tax amounts
(0 when there are none), and the gross value is recomputed from those
source amounts rather than copied from upstream. -/
theorem gross_price_net_plus_tax (inv : StripeInvoice) (p : InfaktPayload)
    (h : transform_stripe_to_infakt inv = .ok (some p)) :
    ∀ s ∈ p.services,
      s.gross_price = s.net_price.getD 0 + s.tax_price ∧
      ∃ item ∈ linesData inv, item.object = some "line_item" ∧
        s.net_price = item.amount ∧
        s.tax_price = taxAmountTotal item ∧
        s.gross_price = item.amount.getD 0 + taxAmountTotal item := by
  intro s hs
  rcases buildServices_mem (transform_services h) s hs with ⟨item, hit, ho, hm⟩
  rcases mkService_ok hm with ⟨hn, ht, hg, _, _⟩
  refine ⟨?_, item, hit, ho, hn, ht, hg⟩
  rw [hg, hn, ht]

/-- Witness for `gross_price_net_plus_tax` at `exampleInvoice`. -/
theorem gross_price_net_plus_tax_witness :
    transform_stripe_to_infakt exampleInvoice = .ok (some examplePayload) ∧
    (∀ s ∈ examplePayload.services,
      s.gross_price = s.net_price.getD 0 + s.tax_price ∧
      ∃ item ∈ linesData exampleInvoice, item.object = some "line_item" ∧
        s.net_price = item.amount ∧
        s.tax_price = taxAmountTotal item ∧
        s.gross_price = item.amount.getD 0 + taxAmountTotal item) :=
  ⟨by decide, gross_price_net_plus_tax exampleInvoice examplePayload (by decide)⟩

/-- C9: the transformer's services list is built from exactly the entries
whose `object` field is `'line_item'`; consequently an invoice with nonzero
total and non-empty lines none of which is a `line_item` transforms to the
skip outcome `None`. -/
theorem services_only_line_items (inv : StripeInvoice) :
    (∀ p : InfaktPayload, transform_stripe_to_infakt inv = .ok (some p) →
      ∀ s ∈ p.services, ∃ item ∈ linesData inv,
        item.object = some "line_item" ∧ mkService item = .ok s) ∧
    (inv.total.getD 0 ≠ 0 → linesData inv ≠ [] →
      (∀ item ∈ linesData inv, ¬ item.object = some "line_item") →
      transform_stripe_to_infakt inv = .ok none) := by
  constructor
  · intro p h s hs
    exact buildServices_mem (transform_services h) s hs
  · intro h1 h2 h3
    unfold transform_stripe_to_infakt
    rw [if_neg h1, if_neg h2, buildServices_skip h3]
    rfl

/-- Witness for `services_only_line_items`: an invoice with total 100 and a
single `invoiceitem` entry is skipped. -/
theorem services_only_line_items_witness :
    (noLineItemInvoice.total.getD 0 ≠ 0 ∧ linesData noLineItemInvoice ≠ [] ∧
     (∀ item ∈ linesData noLineItemInvoice, ¬ item.object = some "line_item")) ∧
    transform_stripe_to_infakt noLineItemInvoice = .ok none :=
  ⟨⟨by decide, by decide, by decide⟩,
   (services_only_line_items noLineItemInvoice).2 (by decide) (by decide) (by decide)⟩

/-- C10: the tax-symbol mapper sends a missing percentage to `"zw"` and any
present percentage to `None`; accordingly, a produced service carries
`tax_symbol` exactly when the item's first tax-rate percentage is missing,
and then that symbol is `"zw"`. -/
theorem tax_symbol_iff_null_percentage :
    (map_stripe_tax_rate_to_infakt_symbol none = some "zw" ∧
     ∀ q : Rat, map_stripe_tax_rate_to_infakt_symbol (some q) = none) ∧
    ∀ (inv : StripeInvoice) (p : InfaktPayload),
      transform_stripe_to_infakt inv = .ok (some p) →
      ∀ s ∈ p.services, ∃ item ∈ linesData inv,
        item.object = some "line_item" ∧
        s.tax_symbol = map_stripe_tax_rate_to_infakt_symbol (taxPercentage item) ∧
        (taxPercentage item = none → s.tax_symbol = some "zw") ∧
        (taxPercentage item ≠ none → s.tax_symbol = none) := by
  refine ⟨⟨rfl, fun q => rfl⟩, ?_⟩
  intro inv p h s hs
  rcases buildServices_mem (transform_services h) s hs with ⟨item, hit, ho, hm⟩
  rcases mkService_ok hm with ⟨_, _, _, hts, _⟩
  refine ⟨item, hit, ho, hts, ?_, ?_⟩
  · intro hq
    rw [hts, hq]
    rfl
  · intro hq
    rw [hts]
    cases htp : taxPercentage item with
    | none => exact absurd htp hq
    | some q => rfl

/-- Witness for `tax_symbol_iff_null_percentage`: `exampleInvoice` has one
item with percentage 23 (symbol omitted) and one item with no tax rates
(symbol `"zw"`). -/
theorem tax_symbol_iff_null_percentage_witness :
    transform_stripe_to_infakt exampleInvoice = .ok (some examplePayload) ∧
    (∀ s ∈ examplePayload.services, ∃ item ∈ linesData exampleInvoice,
      item.object = some "line_item" ∧
      s.tax_symbol = map_stripe_tax_rate_to_infakt_symbol (taxPercentage item) ∧
      (taxPercentage item = none → s.tax_symbol = some "zw") ∧
      (taxPercentage item ≠ none → s.tax_symbol = none)) :=
  ⟨by decide, tax_symbol_iff_null_percentage.2 exampleInvoice examplePayload (by decide)⟩

/-- C5 (amended): for a produced service whose item has a truthy (present,
nonzero) quantity, `unit_net_price` is the quotient `amount / quantity`
truncated toward zero (Python `int(...)` on the float quotient), which
agrees with `floor` for nonnegative quotients but not for negative ones;
for an absent or zero quantity, `unit_net_price` equals the item's amount.
In particular amount 4000 with quantity 2 yields 2000. -/
theorem unit_net_price_trunc (inv : StripeInvoice) (p : InfaktPayload)
    (h : transform_stripe_to_infakt inv = .ok (some p)) :
    ∀ s ∈ p.services, ∃ item ∈ linesData inv,
      item.object = some "line_item" ∧
      (item.quantity.getD 0 ≠ 0 →
        ∃ a, item.amount = some a ∧
          s.unit_net_price = some (Int.tdiv a (item.quantity.getD 0))) ∧
      (item.quantity.getD 0 = 0 → s.unit_net_price = item.amount) := by
  intro s hs
  rcases buildServices_mem (transform_services h) s hs with ⟨item, hit, ho, hm⟩
  rcases mkService_ok hm with ⟨_, _, _, _, hu⟩
  refine ⟨item, hit, ho, ?_, ?_⟩
  · intro hq
    unfold unitNetPrice at hu
    rw [if_pos hq] at hu
    cases ha : item.amount with
    | none => rw [ha] at hu; exact Except.noConfusion hu
    | some a =>
      rw [ha] at hu
      refine ⟨a, rfl, ?_⟩
      injection hu with hu'
      exact hu'.symm
  · intro hq
    unfold unitNetPrice at hu
    rw [if_neg (fun hne => hne hq)] at hu
    injection hu with hu'
    exact hu'.symm

/-- Witness for `unit_net_price_trunc` at `exampleInvoice` (amount 4000,
quantity 2 → 2000; amount 500 with absent quantity → 500). -/
theorem unit_net_price_trunc_witness :
    transform_stripe_to_infakt exampleInvoice = .ok (some examplePayload) ∧
    (∀ s ∈ examplePayload.services, ∃ item ∈ linesData exampleInvoice,
      item.object = some "line_item" ∧
      (item.quantity.getD 0 ≠ 0 →
        ∃ a, item.amount = some a ∧
          s.unit_net_price = some (Int.tdiv a (item.quantity.getD 0))) ∧
      (item.quantity.getD 0 = 0 → s.unit_net_price = item.amount)) :=
  ⟨by decide, unit_net_price_trunc exampleInvoice examplePayload (by decide)⟩

/-- C5 (counterexample to the claim as stated): a line item with amount −5
and quantity 2 — a Stripe credit/proration line — produces
`unit_net_price = -2` (truncation toward zero), while
`floor(net_price / quantity) = Int.fdiv (-5) 2 = -3`. -/
theorem unit_net_price_not_floor :
    Except.map (Option.map (fun p => p.services.map (fun s => s.unit_net_price)))
        (transform_stripe_to_infakt negAmountInvoice) = .ok (some [some (-2)]) ∧
    Int.fdiv (-5) 2 = -3 ∧ (-2 : Int) ≠ -3 := by
  exact ⟨by decide, by decide, by decide⟩

/-! ## Theorems: Client Classifier -/

/-- C3 (amended): whenever `get_client_details` returns on a customer with
no tax code and a non-empty name, the result is the PrivatePerson field set
exactly when the name contains at least one space — splitting at the first
space only, so a name with several spaces still classifies as a private
person, with everything after the first space as the last name — and the
Company fallback (full name as company name) happens exactly for a
space-free name. -/
theorem client_details_name_split (c : Customer) (nm : String) (d : ClientDetails)
    (h : get_client_details (some c) none = .ok d)
    (hn : c.name = some nm) (hne : nm ≠ "") :
    (nm.data.contains spaceChar = true →
      d.client_first_name = some ⟨nm.data.takeWhile (fun ch => ch ≠ spaceChar)⟩ ∧
      d.client_last_name = some ⟨(nm.data.dropWhile (fun ch => ch ≠ spaceChar)).tail⟩ ∧
      d.client_business_activity_kind = some "private_person" ∧
      d.client_company_name = none) ∧
    (nm.data.contains spaceChar = false →
      d.client_company_name = some nm ∧
      d.client_business_activity_kind = some "other_business" ∧
      d.client_first_name = none ∧
      d.client_last_name = none) := by
  simp only [get_client_details] at h
  by_cases ha : c.address = some none
  · rw [if_pos ha] at h
    exact Except.noConfusion h
  rw [if_neg ha] at h
  rw [if_neg (by decide : ¬ truthyStr none = true)] at h
  have ht : truthyStr c.name = true := by
    rw [hn]
    simp [truthyStr, hne]
  rw [if_pos ht, hn] at h
  by_cases hsp : nm.data.contains spaceChar
  · have hsplit : splitFirstSpace ((some nm).getD "") =
        [⟨nm.data.takeWhile (fun ch => ch ≠ spaceChar)⟩,
         ⟨(nm.data.dropWhile (fun ch => ch ≠ spaceChar)).tail⟩] := by
      unfold splitFirstSpace
      rw [Option.getD_some, if_pos hsp]
    rw [hsplit] at h
    cases h
    constructor
    · intro _
      exact ⟨rfl, rfl, rfl, rfl⟩
    · intro hf
      rw [hsp] at hf
      exact Bool.noConfusion hf
  · have hsplit : splitFirstSpace ((some nm).getD "") = [nm] := by
      unfold splitFirstSpace
      rw [Option.getD_some, if_neg hsp]
    rw [hsplit] at h
    cases h
    constructor
    · intro ht'
      rw [ht'] at hsp
      exact absurd rfl hsp
    · intro _
      exact ⟨rfl, rfl, rfl, rfl⟩

/-- C3 (counterexample to the claim as stated): the name
`"Jan Maria Kowalski"` contains more than one space, yet because
`name.split(' ', 1)` splits at the first space only, the customer is
classified as a PrivatePerson `{Jan, Maria Kowalski}`, not as a Company as
the claim requires. -/
theorem client_details_two_spaces_private_person :
    get_client_details (some threeWordCustomer) none =
      .ok { client_first_name := some "Jan"
            client_last_name := some "Maria Kowalski"
            client_business_activity_kind := some "private_person" } := by
  decide

/-- Witness for `client_details_name_split` at the two-word name
`"Jan Kowalski"`. -/
theorem client_details_name_split_witness :
    (get_client_details (some jkCustomer) none = .ok jkDetails ∧
     jkCustomer.name = some "Jan Kowalski" ∧ "Jan Kowalski" ≠ "") ∧
    ((("Jan Kowalski" : String).data.contains spaceChar = true →
      jkDetails.client_first_name =
        some ⟨("Jan Kowalski" : String).data.takeWhile (fun ch => ch ≠ spaceChar)⟩ ∧
      jkDetails.client_last_name =
        some ⟨(("Jan Kowalski" : String).data.dropWhile (fun ch => ch ≠ spaceChar)).tail⟩ ∧
      jkDetails.client_business_activity_kind = some "private_person" ∧
      jkDetails.client_company_name = none) ∧
     (("Jan Kowalski" : String).data.contains spaceChar = false →
      jkDetails.client_company_name = some "Jan Kowalski" ∧
      jkDetails.client_business_activity_kind = some "other_business" ∧
      jkDetails.client_first_name = none ∧
      jkDetails.client_last_name = none)) :=
  ⟨⟨by decide, rfl, by decide⟩,
   client_details_name_split jkCustomer "Jan Kowalski" jkDetails (by decide) rfl (by decide)⟩

/-- C4 (code bug): on a customer record whose `address` key holds JSON
`null` — the shape Stripe returns for customers without an address —
`get_client_details` raises `AttributeError` (`customer_data.get("address",
{})` returns the stored `None`, and `None.get("line1")` fails) instead of
classifying, contradicting the classifier-totality claim. -/
theorem client_details_null_address_raises :
    get_client_details (some nullAddressCustomer) none = .error () := by
  decide

/-! ## Theorems: tax identifier extraction -/

lemma extractNipAux_spec (ids : List TaxIdObj) (acc : Option String) :
    extractNipAux ids acc =
      match ids.find? isEuVatTruthy with
      | some t => t.value
      | none =>
        match (ids.filter isTruthyVal).getLast? with
        | some u => u.value
        | none => acc := by
  induction ids generalizing acc with
  | nil => rfl
  | cons t rest ih =>
    cases htv : t.value with
    | none =>
      have h1 : ¬ isEuVatTruthy t = true := by
        simp [isEuVatTruthy, truthyStr, htv]
      have h2 : ¬ isTruthyVal t = true := by
        simp [isTruthyVal, truthyStr, htv]
      have hfind := List.find?_cons_of_neg (p := isEuVatTruthy) rest h1
      have hfilter := List.filter_cons_of_neg (p := isTruthyVal) (l := rest) h2
      simp only [extractNipAux, htv, hfind, hfilter]
      exact ih acc
    | some v =>
      by_cases hve : v = ""
      · have h1 : ¬ isEuVatTruthy t = true := by
          simp [isEuVatTruthy, truthyStr, htv, hve]
        have h2 : ¬ isTruthyVal t = true := by
          simp [isTruthyVal, truthyStr, htv, hve]
        have hfind := List.find?_cons_of_neg (p := isEuVatTruthy) rest h1
        have hfilter := List.filter_cons_of_neg (p := isTruthyVal) (l := rest) h2
        simp only [extractNipAux, htv, if_pos hve, hfind, hfilter]
        exact ih acc
      · by_cases het : t.type = some "eu_vat"
        · have h1 : isEuVatTruthy t = true := by
            simp [isEuVatTruthy, truthyStr, htv, hve, het]
          have hfind := List.find?_cons_of_pos (p := isEuVatTruthy) rest h1
          simp only [extractNipAux, htv, if_neg hve, if_pos het, hfind]
        · have h1 : ¬ isEuVatTruthy t = true := by
            simp [isEuVatTruthy, truthyStr, htv, hve, het]
          have h2 : isTruthyVal t = true := by
            simp [isTruthyVal, truthyStr, htv, hve]
          have hfind := List.find?_cons_of_neg (p := isEuVatTruthy) rest h1
          have hfilter := List.filter_cons_of_pos (p := isTruthyVal) (l := rest) h2
          simp only [extractNipAux, htv, if_neg hve, if_neg het, hfind, hfilter]
          rw [ih (some v)]
          cases hf : rest.find? isEuVatTruthy with
          | some u => simp only [hf]
          | none =>
            simp only [hf]
            cases hfl : rest.filter isTruthyVal with
            | nil =>
              simp only [hfl, List.getLast?_nil, List.getLast?_singleton]
              exact htv.symm
            | cons a l =>
              simp only [hfl, List.getLast?_cons_cons]
              cases hgl : (a :: l).getLast? with
              | none =>
                rw [List.getLast?_eq_none_iff] at hgl
                exact absurd hgl (List.cons_ne_nil a l)
              | some u => rfl

/-- C2 (amended): the extracted tax identifier is the value of the first
record of type `eu_vat` with a truthy (non-null, non-empty) value when one
exists — the scan breaks there — and otherwise the value of the **last**
record with a truthy value (each truthy value overwrites the previous one;
the source only breaks on `eu_vat`), `None` when there is none.  Records
with null or empty-string values are skipped entirely. -/
theorem extractNip_characterization (ids : List TaxIdObj) :
    extractNip ids =
      match ids.find? isEuVatTruthy with
      | some t => t.value
      | none =>
        match (ids.filter isTruthyVal).getLast? with
        | some u => u.value
        | none => none :=
  extractNipAux_spec ids none

/-- C2 (counterexample to the claim as stated): with two truthy non-`eu_vat`
identifiers `us_ein:"1"` then `gb_vat:"2"`, the loop overwrites `nip` on
each truthy value and never breaks, so the extracted identifier is the last
value `"2"`, not the first non-null value `"1"` the claim requires. -/
theorem extractNip_not_first_nonnull :
    extractNip [usEin, gbVat] = some "2" ∧
    usEin.value = some "1" ∧ gbVat.value = some "2" ∧
    usEin.type ≠ some "eu_vat" ∧ gbVat.type ≠ some "eu_vat" ∧
    some "2" ≠ (some "1" : Option String) := by
  refine ⟨by decide, rfl, rfl, by decide, by decide, by decide⟩

/-! ## Theorems: client-side paid filter -/

/-- C7 (amended): the client-side filter returns exactly the fetched
invoices whose `status_transitions.paid_at` is truthy — non-null **and
nonzero**, since the source tests `if paid_at and ...` — and lies within
the inclusive range, preserving the upstream order (the result is a
sublist of the input). -/
theorem paid_filter_characterization (fetched : List StripeInvoice) (s e : Int) :
    get_paid_invoices fetched s e = fetched.filter (paidInRange s e) ∧
    (get_paid_invoices fetched s e).Sublist fetched ∧
    ∀ inv, inv ∈ get_paid_invoices fetched s e ↔
      inv ∈ fetched ∧ ∃ p, statusPaidAt inv = some p ∧ p ≠ 0 ∧ s ≤ p ∧ p ≤ e := by
  have hf : get_paid_invoices fetched s e = fetched.filter (paidInRange s e) := by
    induction fetched with
    | nil => rfl
    | cons inv rest ih =>
      unfold get_paid_invoices
      cases hp : statusPaidAt inv with
      | none =>
        dsimp only
        rw [ih, List.filter_cons_of_neg (by simp [paidInRange, hp])]
      | some p =>
        dsimp only
        by_cases hc : p ≠ 0 ∧ s ≤ p ∧ p ≤ e
        · rw [if_pos hc, ih,
            List.filter_cons_of_pos
              (by simp only [paidInRange, hp]; exact decide_eq_true hc)]
        · rw [if_neg hc, ih,
            List.filter_cons_of_neg
              (by simp only [paidInRange, hp]; simpa using hc)]
  refine ⟨hf, ?_, ?_⟩
  · rw [hf]
    exact List.filter_sublist _
  · intro inv
    rw [hf, List.mem_filter]
    constructor
    · rintro ⟨hm, hpr⟩
      refine ⟨hm, ?_⟩
      unfold paidInRange at hpr
      cases hp : statusPaidAt inv with
      | none => rw [hp] at hpr; exact Bool.noConfusion hpr
      | some p =>
        rw [hp] at hpr
        exact ⟨p, rfl, of_decide_eq_true hpr⟩
    · rintro ⟨hm, p, hp, hrest⟩
      refine ⟨hm, ?_⟩
      unfold paidInRange
      rw [hp]
      exact decide_eq_true hrest

/-- C7 (counterexample to the claim as stated): an invoice paid exactly at
the Unix epoch (`paid_at = 0`) is dropped by the filter even when 0 lies
inside `[start_ts, end_ts]`, because Python's `if paid_at` treats the
integer 0 as falsy, while the claim only requires the timestamp to be
non-null. -/
theorem paid_filter_drops_zero_timestamp :
    get_paid_invoices [zeroPaidInvoice] (-100) 100 = [] ∧
    statusPaidAt zeroPaidInvoice = some 0 ∧
    (-100 : Int) ≤ 0 ∧ (0 : Int) ≤ 100 := by
  refine ⟨by decide, rfl, by decide, by decide⟩

/-! ## Theorems: Destination Submitter -/

/-- C8 (amended): `create_invoice_async` posts the payload wrapped in the
`{"invoice": ...}` envelope exactly when the `invoice` key is not already
present; it returns `None` without raising on a network failure, on any
4xx/5xx status (the only statuses `raise_for_status` raises for), and on a
response body that fails to parse; for any other status the parsed body is
returned as-is — so a non-2xx status outside 400–599 (e.g. a redirect)
with a parseable body is **not** treated as a failure.  The model consumes
exactly one HTTP outcome per call: no retries. -/
theorem create_invoice_async_behavior (p : JsonObj) (o : HttpOutcome) :
    ((objKeys p).contains "invoice" = true → (create_invoice_async p o).1 = p) ∧
    ((objKeys p).contains "invoice" = false →
      (create_invoice_async p o).1 = [("invoice", JsonVal.obj p)]) ∧
    ((create_invoice_async p .requestRaises).2 = none) ∧
    (∀ st b, 400 ≤ st → st < 600 → (create_invoice_async p (.response st b)).2 = none) ∧
    (∀ st, (create_invoice_async p (.response st none)).2 = none) ∧
    (∀ st b, ¬ (400 ≤ st ∧ st < 600) → (create_invoice_async p (.response st b)).2 = b) := by
  refine ⟨?_, ?_, rfl, ?_, ?_, ?_⟩
  · intro hk
    unfold create_invoice_async ensureWrapped
    dsimp only
    rw [if_pos hk]
  · intro hk
    unfold create_invoice_async ensureWrapped
    dsimp only
    rw [if_neg (by intro hcon; rw [hk] at hcon; exact Bool.noConfusion hcon)]
  · intro st b h4 h6
    unfold create_invoice_async
    dsimp only
    rw [if_pos ⟨h4, h6⟩]
  · intro st
    unfold create_invoice_async
    dsimp only
    by_cases hs : 400 ≤ st ∧ st < 600
    · rw [if_pos hs]
    · rw [if_neg hs]
  · intro st b hs
    unfold create_invoice_async
    dsimp only
    rw [if_neg hs]
    cases b with
    | none => rfl
    | some d => rfl

/-- Witness for `create_invoice_async_behavior`: an already-wrapped payload
is posted unchanged. -/
theorem create_invoice_async_behavior_witness :
    (objKeys wrappedExample).contains "invoice" = true ∧
    (create_invoice_async wrappedExample .requestRaises).1 = wrappedExample :=
  ⟨by decide, (create_invoice_async_behavior wrappedExample .requestRaises).1 (by decide)⟩

/-- C8 (counterexample to the claim as stated): a response with status 302
— not a 2xx — whose body parses fine makes `create_invoice_async` return
the parsed body rather than the claimed Failure (`None`), because
`raise_for_status` only raises for statuses 400–599. -/
theorem create_invoice_redirect_not_failure :
    (create_invoice_async [] (.response 302 (some taskRefBody))).2 = some taskRefBody ∧
    some taskRefBody ≠ (none : Option JsonObj) ∧
    ¬ (200 ≤ 302 ∧ (302 : Nat) < 300) :=
  ⟨rfl, Option.some_ne_none _, by decide⟩

end StripeInfakt
